import Mathlib

/-!
# Verification of the NeuralGCM forecast round-trip validator

This file gives a shallow embedding of the integration test
`neuralgcm/api_test.py` (function `APITest.test_stochastic_model_basics`
and the helper `horizontal_regrid`) and proves properties of it.

Modelling conventions:

* xarray `Dataset`s are association lists from variable names to
  variables; a variable is stored in the canonical layout produced by
  `xarray.apply_ufunc` with core dims `['longitude', 'latitude']`: its
  non-horizontal dimensions (with sizes) come first and the data is a
  list of longitude×latitude slices, one per flattened outer index.
* Array elements are exact rationals (`ℚ`); scalar statistics that
  numpy computes in floating point are modelled by the extended value
  type `NpF` (finite real, ±infinity, or NaN), with numpy's comparison
  and division semantics (`nan` compares false, `x / 0` is `±inf` or
  `nan`).  Decimal literals of the Python source are read as exact
  rationals.
* `xarray.Dataset` binary operations join data variables by name with
  an inner join (variables present in only one operand are dropped),
  matching xarray's `_calculate_binary_op` with the default
  `join='inner'`.
-/

/-! ## Scalar layer: numpy-style extended values -/

/-- Extended value produced by numpy float arithmetic: a finite real,
positive or negative infinity, or NaN. -/
inductive NpF where
  | fin : ℝ → NpF
  | pinf : NpF
  | ninf : NpF
  | nan : NpF

/-- Numpy comparison `x < y`: any comparison with NaN is false,
`-inf < fin _ < +inf`, and infinities are not less than themselves. -/
def NpF.lt : NpF → NpF → Prop
  | .nan, _ => False
  | _, .nan => False
  | .fin a, .fin b => a < b
  | .fin _, .pinf => True
  | .fin _, .ninf => False
  | .pinf, _ => False
  | .ninf, .ninf => False
  | .ninf, _ => True

open scoped Classical in
/-- Numpy division on extended values: `a / 0` is `nan` when `a = 0`
and a signed infinity otherwise; NaN propagates; a finite value divided
by an infinity is `0`; `inf / inf` is `nan`. -/
noncomputable def NpF.div : NpF → NpF → NpF
  | .nan, _ => .nan
  | _, .nan => .nan
  | .fin a, .fin b =>
      if b = 0 then (if a = 0 then .nan else if 0 < a then .pinf else .ninf)
      else .fin (a / b)
  | .fin _, .pinf => .fin 0
  | .fin _, .ninf => .fin 0
  | .pinf, .fin b => if 0 ≤ b then .pinf else .ninf
  | .ninf, .fin b => if 0 ≤ b then .ninf else .pinf
  | .pinf, _ => .nan
  | .ninf, _ => .nan

/-- Mean of a list of rationals (`numpy.mean`); `0` on the empty list,
which is only ever used guarded by an emptiness test. -/
def meanQ (xs : List ℚ) : ℚ := xs.sum / (xs.length : ℚ)

/-- Population variance (`numpy.var`, `ddof = 0`): mean of the squared
deviations from the mean. -/
def varianceQ (xs : List ℚ) : ℚ := meanQ (xs.map (fun x => (x - meanQ xs) ^ 2))

/-- Median of a list of rationals (`numpy.median` on a nonempty array):
middle element of the sorted list for odd length, average of the two
middle elements for even length. -/
def medianQ (xs : List ℚ) : ℚ :=
  let s := xs.insertionSort (· ≤ ·)
  let n := s.length
  if n % 2 = 1 then s.getD (n / 2) 0
  else (s.getD (n / 2 - 1) 0 + s.getD (n / 2) 0) / 2

/-- `numpy.median` as an extended value: NaN on an empty array. -/
noncomputable def medianNp (xs : List ℚ) : NpF :=
  if xs.isEmpty then .nan else .fin ((medianQ xs : ℚ) : ℝ)

/-- `numpy.std` (`ddof = 0`) as an extended value: the square root of
the population variance, NaN on an empty array. -/
noncomputable def stdNp (xs : List ℚ) : NpF :=
  if xs.isEmpty then .nan else .fin (Real.sqrt ((varianceQ xs : ℚ) : ℝ))

/-! ## Dataset layer -/

/-- A data variable in canonical layout: non-horizontal dimensions
(with sizes) first, then the horizontal data as a list of
longitude×latitude slices (one slice per flattened outer index, each
slice a list of longitude rows of latitude values). -/
structure Var where
  outerDims : List (String × ℕ)
  nlon : ℕ
  nlat : ℕ
  slices : List (List (List ℚ))
deriving DecidableEq

/-- All data elements of a variable, flattened in layout order. -/
def Var.flat (v : Var) : List ℚ := v.slices.flatten.flatten

/-- An xarray `Dataset`: named data variables plus named coordinate
arrays (coordinate values live in `ℝ` since grid angles are real). -/
structure Dataset where
  dataVars : List (String × Var)
  coords : List (String × List ℝ)

/-- Names of the data variables of a dataset, in order. -/
def Dataset.varNames (ds : Dataset) : List String := ds.dataVars.map Prod.fst

/-- Elementwise binary operation on the nested slice data. -/
def map2Slices (f : ℚ → ℚ → ℚ) (x y : List (List (List ℚ))) :
    List (List (List ℚ)) :=
  List.zipWith (List.zipWith (List.zipWith f)) x y

/-- Elementwise unary operation on the nested slice data. -/
def mapSlices (f : ℚ → ℚ) (x : List (List (List ℚ))) : List (List (List ℚ)) :=
  x.map (List.map (List.map f))

/-- Elementwise difference of two variables (shapes are expected to
agree; theorems that need this carry an explicit shape hypothesis). -/
def varSub (a b : Var) : Var :=
  { outerDims := a.outerDims, nlon := a.nlon, nlat := a.nlat
    slices := map2Slices (fun x y => x - y) a.slices b.slices }

/-- Elementwise absolute value of a variable. -/
def varAbs (a : Var) : Var :=
  { outerDims := a.outerDims, nlon := a.nlon, nlat := a.nlat
    slices := mapSlices (fun x => |x|) a.slices }

/-- Dataset difference `actual - expected`: inner join on variable
names (xarray drops variables present in only one operand), elementwise
subtraction on matching variables. -/
def dsSub (a e : Dataset) : Dataset :=
  { dataVars := a.dataVars.filterMap
      (fun p => (List.lookup p.1 e.dataVars).map (fun ve => (p.1, varSub p.2 ve)))
    coords := a.coords }

/-- Dataset `abs`: elementwise absolute value of every data variable. -/
def dsAbs (a : Dataset) : Dataset :=
  { dataVars := a.dataVars.map (fun p => (p.1, varAbs p.2)), coords := a.coords }

/-- Dataset `.median()`: reduce every data variable over all of its
dimensions to a scalar median. -/
noncomputable def dsMedian (a : Dataset) : List (String × NpF) :=
  a.dataVars.map (fun p => (p.1, medianNp p.2.flat))

/-- Dataset `.std()`: reduce every data variable over all of its
dimensions to a scalar standard deviation. -/
noncomputable def dsStd (a : Dataset) : List (String × NpF) :=
  a.dataVars.map (fun p => (p.1, stdNp p.2.flat))

/-- Division of two scalar datasets: inner join on names, numpy
division on the values. -/
noncomputable def scalarDiv (xs ys : List (String × NpF)) : List (String × NpF) :=
  xs.filterMap (fun p => (List.lookup p.1 ys).map (fun y => (p.1, NpF.div p.2 y)))

/-- The test's error metric, exactly as the source computes it:
`abs(actual - expected).median() / expected.std()`. -/
noncomputable def typical_relative_error (actual expected : Dataset) :
    List (String × NpF) :=
  scalarDiv (dsMedian (dsAbs (dsSub actual expected))) (dsStd expected)

/-- The tolerance table of the test, as exact rationals. -/
def tolerance : List (String × ℚ) :=
  [("u_component_of_wind", 0.04),
   ("v_component_of_wind", 0.08),
   ("temperature", 0.02),
   ("geopotential", 0.0005),
   ("specific_humidity", 0.003),
   ("specific_cloud_liquid_water_content", 0.12),
   ("specific_cloud_ice_water_content", 0.15)]

/-- The comparison `typical_relative_error < tolerance` on scalar
datasets: inner join on names, numpy strict comparison per variable. -/
def dsLtTol (xs : List (String × NpF)) (tol : List (String × ℚ)) :
    List (String × Prop) :=
  xs.filterMap (fun p => (List.lookup p.1 tol).map
    (fun t => (p.1, NpF.lt p.2 (.fin (t : ℝ)))))

/-- The assertion's condition,
`(typical_relative_error < tolerance).to_array().values.all()`:
every variable of the (inner-joined) comparison is true. -/
def testPasses (actual expected : Dataset) : Prop :=
  ∀ p ∈ dsLtTol (typical_relative_error actual expected) tolerance, p.2

/-- Outcome of `assertTrue`: pass, or a failure carrying the message,
which in the source interpolates the full `typical_relative_error`
dataset (every variable's value). -/
inductive TestOutcome where
  | pass : TestOutcome
  | failure : List (String × NpF) → TestOutcome

open scoped Classical in
/-- `self.assertTrue(cond, msg=...)`: passes when the condition holds,
otherwise fails with the given message. -/
noncomputable def assertTrueMsg (cond : Prop) (table : List (String × NpF)) :
    TestOutcome :=
  if cond then .pass else .failure table

/-- The validation step of the test: assert that all typical relative
errors are below tolerance, attaching the full error table as message. -/
noncomputable def validationOutcome (actual expected : Dataset) : TestOutcome :=
  assertTrueMsg (testPasses actual expected) (typical_relative_error actual expected)

/-! ## Regridding (`horizontal_regrid`) -/

/-- A horizontal grid: its native angular coordinates, in radians
(`spherical_harmonic.Grid.longitudes` / `.latitudes`). -/
structure Grid where
  longitudes : List ℝ
  latitudes : List ℝ

/-- A horizontal regridder (`horizontal_interpolation.Regridder`): a
source grid, a target grid, and the callable that maps one
longitude×latitude slice to a regridded slice.  The dinosaur
`ConservativeRegridder` contract is that the output slice has the
target grid's shape; `xarray.apply_ufunc` infers the output core-dim
sizes from that output. -/
structure Regridder where
  source_grid : Grid
  target_grid : Grid
  regrid : List (List ℚ) → List (List ℚ)

/-- `numpy.rad2deg`: convert radians to degrees. -/
noncomputable def rad2deg (x : ℝ) : ℝ := x * 180 / Real.pi

/-- The test's `horizontal_regrid`: `xarray.apply_ufunc` of the
regridder over core dims `['longitude', 'latitude']` with
`vectorize=True` (the regridder is applied to each
longitude×latitude slice independently, looping over every
non-spatial index), with the excluded horizontal coordinates then
reattached as the target grid's angles converted from radians to
degrees. -/
noncomputable def horizontal_regrid (regridder : Regridder) (dataset : Dataset) :
    Dataset :=
  { dataVars := dataset.dataVars.map (fun p =>
      (p.1, { outerDims := p.2.outerDims
              nlon := regridder.target_grid.longitudes.length
              nlat := regridder.target_grid.latitudes.length
              slices := p.2.slices.map regridder.regrid }))
    coords :=
      (dataset.coords.filter
        (fun p => !(p.1 == "longitude" || p.1 == "latitude"))) ++
      [("longitude", regridder.target_grid.longitudes.map rad2deg),
       ("latitude", regridder.target_grid.latitudes.map rad2deg)] }

/-! ## Dataset loading and variable selection -/

/-- Dimension names of a dataset: the outer dimensions of its data
variables, the dimensions of its coordinate arrays, and the horizontal
dimensions (which every variable has in this canonical layout). -/
def Dataset.dimNames (ds : Dataset) : List String :=
  (ds.dataVars.map (fun p => p.2.outerDims.map Prod.fst)).flatten ++
    ds.coords.map Prod.fst ++ ["longitude", "latitude"]

/-- `xarray.Dataset.expand_dims(d)`: raises `ValueError` when the
dimension already exists, otherwise inserts a new dimension of size 1
at axis 0 of every data variable.  (xarray's promotion of an existing
scalar coordinate is not distinguished here: coordinate arrays are
carried over unchanged.) -/
def Dataset.expand_dims (ds : Dataset) (d : String) : Except String Dataset :=
  if d ∈ ds.dimNames then .error ("Dimension " ++ d ++ " already exists.")
  else .ok
    { dataVars := ds.dataVars.map
        (fun p => (p.1, { p.2 with outerDims := (d, 1) :: p.2.outerDims }))
      coords := ds.coords }

/-- `xarray.Dataset.drop_vars(names)` with the default
`errors='raise'`: fails when any requested name is absent, otherwise
removes exactly the requested data variables. -/
def Dataset.drop_vars (ds : Dataset) (names : List String) : Except String Dataset :=
  if names.all (fun n => ds.varNames.contains n) then
    .ok { dataVars := ds.dataVars.filter (fun p => !(names.contains p.1))
          coords := ds.coords }
  else .error "One or more of the specified variables cannot be found in this dataset"

/-- The variable-set requirement enforced by
`xarray.testing.assert_allclose(actual, expected)`: the two datasets
must have the same data-variable names (the assertion fails otherwise;
its numeric closeness part, with the deliberately loose `atol=1e6`, is
not needed by the claims below). -/
def sameVarNames (a e : Dataset) : Prop :=
  ∀ n : String, n ∈ a.varNames ↔ n ∈ e.varNames

/-! ## Rollout timestamps and the modelled model interface -/

/-- `numpy.arange(start, stop, step)` over integers (the test's
`datetime64`/`timedelta64` values are 64-bit integer counts of a fixed
unit): `⌈(stop - start) / step⌉` evenly spaced values starting at
`start`.  (`step = 0` raises in numpy; here it yields the empty
list.) -/
def npArange (start stop step : ℤ) : List ℤ :=
  let n : ℕ :=
    if 0 < step then ((stop - start + step - 1) / step).toNat
    else if step < 0 then ((start - stop - step - 1) / (-step)).toNat
    else 0
  (List.range n).map (fun i : ℕ => start + (i : ℤ) * step)

/-- Modelled from the spec: `PressureLevelModel.unroll` belongs to this
repository but is not under `src/` (only its caller `api_test.py` is).
Per the spec (§4.1 step 6), the rollout output is an ordered sequence
of decoded snapshots whose length equals the requested step count;
with `start_with_input=True` its element 0 is the (re-decoded) initial
condition itself and element `i` is the state after `i` applications of
the model's transition function. -/
def unrollOutputs {S O : Type _} (stepFn : S → S) (decodeFn : S → O)
    (encoded : S) (steps : ℕ) (start_with_input : Bool) : List O :=
  if start_with_input then
    (List.range steps).map (fun i => decodeFn (stepFn^[i] encoded))
  else
    (List.range steps).map (fun i => decodeFn (stepFn^[i + 1] encoded))

/-- Modelled from the spec: `PressureLevelModel.encode` belongs to this
repository but is not under `src/`.  Per the spec (§4.1 step 5), it
produces the encoded state from `(State₀, Forcings₀)` and a seeded
random source; the seed governs any stochastic component of
initialization (perturbation sampling), modelled as a function of the
RNG key. -/
def encode {St Fo Key Noise Enc : Type _} (perturbation : Key → Noise)
    (combine : St → Fo → Noise → Enc) (state : St) (forcings : Fo)
    (rng_key : Key) : Enc :=
  combine state forcings (perturbation rng_key)

/-! ## Shapes and the per-variable error formula of the spec -/

/-- Shape of nested slice data: the latitude-row lengths of every
slice. -/
def shape3 (x : List (List (List ℚ))) : List (List ℕ) :=
  x.map (fun m => m.map List.length)

/-- The error formula as the spec words it, per variable: the median
of the elementwise absolute difference between the actual and expected
fields, divided by the standard deviation of the expected field. -/
noncomputable def specVarRelativeError (aData eData : List ℚ) : NpF :=
  NpF.div (medianNp (List.zipWith (fun x y => |x - y|) aData eData)) (stdNp eData)

/-! ## Concrete fixtures used by witnesses and counterexamples -/

/-- A sample expected variable: two data points `1, -1` (mean 0,
variance 1, standard deviation 1). -/
def exVarE : Var :=
  { outerDims := [], nlon := 2, nlat := 1, slices := [[[1], [-1]]] }

/-- A sample actual variable off by `+1` everywhere from `exVarE`. -/
def exVarBad : Var :=
  { outerDims := [], nlon := 2, nlat := 1, slices := [[[2], [0]]] }

/-- Single-variable sample dataset. -/
def pairE : Dataset := { dataVars := [("temperature", exVarE)], coords := [] }

/-- Single-variable sample dataset with a large error against `pairE`. -/
def pairBad : Dataset := { dataVars := [("temperature", exVarBad)], coords := [] }

/-- Sample dataset holding all seven tolerance-checked variables. -/
def sevenE : Dataset :=
  { dataVars := tolerance.map (fun p => (p.1, exVarE)), coords := [] }

/-- Sample dataset that already has a `time` dimension. -/
def dsWithTime : Dataset :=
  { dataVars := [("temperature",
      { outerDims := [("time", 1)], nlon := 2, nlat := 1, slices := [[[1], [-1]]] })]
    coords := [] }

/-- Sample dataset with the two forcing variables present. -/
def ds5 : Dataset :=
  { dataVars := [("temperature", exVarE), ("sea_surface_temperature", exVarE),
      ("sea_ice_cover", exVarE)]
    coords := [] }

/-- Sample one-point grid. -/
def exGrid : Grid := { longitudes := [0], latitudes := [0] }

/-- Sample regridder onto the one-point grid. -/
def exRegridder : Regridder :=
  { source_grid := { longitudes := [0, 1], latitudes := [0] }
    target_grid := exGrid
    regrid := fun _ => [[0]] }

/-! ## Generic association-list lemmas -/

theorem lookup_not_mem_keys {β : Type _} (n : String) (xs : List (String × β))
    (h : n ∉ xs.map Prod.fst) : List.lookup n xs = none := by
  rw [List.lookup_eq_none_iff]
  intro p hp
  simp only [bne_iff_ne, ne_eq]
  intro hcontra
  exact h (hcontra ▸ List.mem_map_of_mem Prod.fst hp)

theorem lookup_map_value {β γ : Type _} (n : String) (f : String → β → γ) :
    ∀ xs : List (String × β),
      List.lookup n (xs.map (fun p => (p.1, f p.1 p.2))) = (List.lookup n xs).map (f n)
  | [] => rfl
  | (k, v) :: rest => by
      by_cases h : n = k
      · subst h; simp
      · simp [List.lookup_cons, beq_false_of_ne h, lookup_map_value n f rest]

theorem keys_map_value {β γ : Type _} (f : String → β → γ) :
    ∀ xs : List (String × β),
      (xs.map (fun p => (p.1, f p.1 p.2))).map Prod.fst = xs.map Prod.fst
  | [] => rfl
  | (k, v) :: rest => by
      simp only [List.map_cons]
      rw [keys_map_value f rest]

theorem keys_filterMap_lookup {β γ δ : Type _} (h : β → γ → δ) (ys : List (String × γ)) :
    ∀ xs : List (String × β),
      (xs.filterMap (fun p => (List.lookup p.1 ys).map (fun y => (p.1, h p.2 y)))).map
          Prod.fst
        = (xs.map Prod.fst).filter (fun k => (List.lookup k ys).isSome)
  | [] => rfl
  | (k, v) :: rest => by
      cases hky : List.lookup k ys with
      | none =>
          simp [List.filterMap_cons, hky, List.filter_cons,
            keys_filterMap_lookup h ys rest]
      | some y =>
          simp [List.filterMap_cons, hky, List.filter_cons,
            keys_filterMap_lookup h ys rest]

theorem lookup_filterMap_lookup {β γ δ : Type _} (n : String) (h : β → γ → δ)
    (ys : List (String × γ)) :
    ∀ xs : List (String × β), (xs.map Prod.fst).Nodup →
      List.lookup n
          (xs.filterMap (fun p => (List.lookup p.1 ys).map (fun y => (p.1, h p.2 y)))) =
        (List.lookup n xs).bind (fun x => (List.lookup n ys).map (fun y => h x y))
  | [], _ => rfl
  | (k, v) :: rest, hnd => by
      simp only [List.map_cons, List.nodup_cons] at hnd
      by_cases heq : n = k
      · subst heq
        cases hky : List.lookup n ys with
        | none =>
            have hnone : List.lookup n
                (rest.filterMap
                  (fun p => (List.lookup p.1 ys).map (fun y => (p.1, h p.2 y)))) = none :=
              lookup_not_mem_keys n _ (fun hmem => hnd.1 (List.mem_of_mem_filter
                (by rwa [keys_filterMap_lookup h ys rest] at hmem)))
            simp [List.filterMap_cons, hky, hnone]
        | some y =>
            simp [List.filterMap_cons, hky]
      · have hb := beq_false_of_ne heq
        cases hky : List.lookup k ys with
        | none =>
            simp only [List.filterMap_cons, hky, Option.map_none']
            rw [lookup_filterMap_lookup n h ys rest hnd.2, List.lookup_cons, hb]
        | some y =>
            simp only [List.filterMap_cons, hky, Option.map_some']
            rw [List.lookup_cons, hb, List.lookup_cons, hb]
            exact lookup_filterMap_lookup n h ys rest hnd.2

theorem lookup_append_left {β : Type _} (n : String) {xs : List (String × β)}
    (ys : List (String × β)) {x : β} (h : List.lookup n xs = some x) :
    List.lookup n (xs ++ ys) = some x := by
  induction xs with
  | nil => simp at h
  | cons hd rest ih =>
      obtain ⟨k, v⟩ := hd
      rw [List.cons_append, List.lookup_cons]
      rw [List.lookup_cons] at h
      cases hb : n == k with
      | true => rw [hb] at h; simpa using h
      | false => rw [hb] at h; exact ih h

theorem lookup_append_right {β : Type _} (n : String) {xs : List (String × β)}
    (ys : List (String × β)) (h : List.lookup n xs = none) :
    List.lookup n (xs ++ ys) = List.lookup n ys := by
  induction xs with
  | nil => rfl
  | cons hd rest ih =>
      obtain ⟨k, v⟩ := hd
      rw [List.cons_append, List.lookup_cons]
      rw [List.lookup_cons] at h
      cases hb : n == k with
      | true => rw [hb] at h; simp at h
      | false => rw [hb] at h; exact ih h

theorem mem_of_lookup_eq_some {β : Type _} {n : String} {x : β} :
    ∀ {xs : List (String × β)}, List.lookup n xs = some x → (n, x) ∈ xs
  | [], h => by simp at h
  | (k, v) :: rest, h => by
      rw [List.lookup_cons] at h
      cases hb : n == k with
      | true =>
          rw [hb] at h
          have hk : n = k := by simpa using hb
          simp only [Option.some.injEq] at h
          exact hk ▸ h ▸ List.mem_cons_self _ _
      | false =>
          rw [hb] at h
          exact List.mem_cons_of_mem _ (mem_of_lookup_eq_some h)

theorem lookup_eq_some_of_mem_nodup {β : Type _} {n : String} {x : β} :
    ∀ {xs : List (String × β)}, (xs.map Prod.fst).Nodup → (n, x) ∈ xs →
      List.lookup n xs = some x
  | [], _, hmem => by simp at hmem
  | (k, v) :: rest, hnd, hmem => by
      simp only [List.map_cons, List.nodup_cons] at hnd
      rcases List.mem_cons.mp hmem with heq | htail
      · injection heq with h1 h2
        subst h1; subst h2
        simp
      · have hne : n ≠ k := by
          intro hcontra
          subst hcontra
          exact hnd.1 (List.mem_map_of_mem Prod.fst htail)
        rw [List.lookup_cons, beq_false_of_ne hne]
        exact lookup_eq_some_of_mem_nodup hnd.2 htail

theorem lookup_some_of_mem_keys {β : Type _} {n : String} :
    ∀ {xs : List (String × β)}, n ∈ xs.map Prod.fst → ∃ x, List.lookup n xs = some x
  | [], hmem => by simp at hmem
  | (k, v) :: rest, hmem => by
      by_cases h : n = k
      · subst h; exact ⟨v, by simp⟩
      · have hmem2 : n ∈ rest.map Prod.fst := by
          rcases List.mem_cons.mp hmem with h1 | h1
          · exact absurd h1 h
          · exact h1
        obtain ⟨x, hx⟩ := lookup_some_of_mem_keys hmem2
        exact ⟨x, by rw [List.lookup_cons, beq_false_of_ne h]; exact hx⟩

/-! ## Lookup characterization of the validation pipeline -/

theorem lookup_dsSub (a e : Dataset) (n : String) (hnd : a.varNames.Nodup) :
    List.lookup n (dsSub a e).dataVars =
      (List.lookup n a.dataVars).bind
        (fun va => (List.lookup n e.dataVars).map (fun ve => varSub va ve)) :=
  lookup_filterMap_lookup n varSub e.dataVars a.dataVars hnd

theorem keys_dsSub (a e : Dataset) :
    (dsSub a e).varNames =
      a.varNames.filter (fun k => (List.lookup k e.dataVars).isSome) :=
  keys_filterMap_lookup varSub e.dataVars a.dataVars

theorem lookup_dsAbs (a : Dataset) (n : String) :
    List.lookup n (dsAbs a).dataVars = (List.lookup n a.dataVars).map varAbs :=
  lookup_map_value n (fun _ v => varAbs v) a.dataVars

theorem lookup_dsMedian (a : Dataset) (n : String) :
    List.lookup n (dsMedian a) =
      (List.lookup n a.dataVars).map (fun v => medianNp v.flat) :=
  lookup_map_value n (fun _ (v : Var) => medianNp v.flat) a.dataVars

theorem lookup_dsStd (a : Dataset) (n : String) :
    List.lookup n (dsStd a) =
      (List.lookup n a.dataVars).map (fun v => stdNp v.flat) :=
  lookup_map_value n (fun _ (v : Var) => stdNp v.flat) a.dataVars

theorem lookup_scalarDiv (n : String) (xs ys : List (String × NpF))
    (hnd : (xs.map Prod.fst).Nodup) :
    List.lookup n (scalarDiv xs ys) =
      (List.lookup n xs).bind
        (fun x => (List.lookup n ys).map (fun y => NpF.div x y)) :=
  lookup_filterMap_lookup n NpF.div ys xs hnd

theorem nodup_keys_dsSub (a e : Dataset) (hnd : a.varNames.Nodup) :
    (dsSub a e).varNames.Nodup := by
  rw [keys_dsSub]
  exact hnd.filter _

theorem keys_tre (a e : Dataset) :
    (typical_relative_error a e).map Prod.fst =
      (dsSub a e).varNames.filter (fun k => (List.lookup k (dsStd e)).isSome) := by
  have hkeys : (dsMedian (dsAbs (dsSub a e))).map Prod.fst = (dsSub a e).varNames :=
    (keys_map_value (fun _ (v : Var) => medianNp v.flat)
        (dsAbs (dsSub a e)).dataVars).trans
      (keys_map_value (fun _ (v : Var) => varAbs v) (dsSub a e).dataVars)
  refine (keys_filterMap_lookup NpF.div (dsStd e)
    (dsMedian (dsAbs (dsSub a e)))).trans ?_
  rw [hkeys]

theorem nodup_keys_tre (a e : Dataset) (hnd : a.varNames.Nodup) :
    ((typical_relative_error a e).map Prod.fst).Nodup := by
  rw [keys_tre]
  exact (nodup_keys_dsSub a e hnd).filter _

theorem lookup_tre (a e : Dataset) (n : String) (hnd : a.varNames.Nodup) :
    List.lookup n (typical_relative_error a e) =
      (List.lookup n a.dataVars).bind (fun va =>
        (List.lookup n e.dataVars).map (fun ve =>
          NpF.div (medianNp (varAbs (varSub va ve)).flat) (stdNp ve.flat))) := by
  have hkeys : (dsMedian (dsAbs (dsSub a e))).map Prod.fst = (dsSub a e).varNames :=
    (keys_map_value (fun _ (v : Var) => medianNp v.flat)
        (dsAbs (dsSub a e)).dataVars).trans
      (keys_map_value (fun _ (v : Var) => varAbs v) (dsSub a e).dataVars)
  have hnd2 : ((dsMedian (dsAbs (dsSub a e))).map Prod.fst).Nodup := by
    rw [hkeys]
    exact nodup_keys_dsSub a e hnd
  show List.lookup n (scalarDiv _ _) = _
  rw [lookup_scalarDiv n _ _ hnd2, lookup_dsMedian, lookup_dsAbs,
    lookup_dsSub a e n hnd, lookup_dsStd]
  cases List.lookup n a.dataVars with
  | none => rfl
  | some va =>
      cases List.lookup n e.dataVars with
      | none => rfl
      | some ve => rfl

/-! ## Flattening elementwise operations -/

theorem flatten_zipWith2 (f : ℚ → ℚ → ℚ) :
    ∀ a b : List (List ℚ), a.map List.length = b.map List.length →
      (List.zipWith (List.zipWith f) a b).flatten = List.zipWith f a.flatten b.flatten
  | [], [], _ => rfl
  | [], _ :: _, h => by simp at h
  | _ :: _, [], h => by simp at h
  | r :: a, s :: b, h => by
      simp only [List.map_cons, List.cons.injEq] at h
      simp only [List.zipWith_cons_cons, List.flatten_cons]
      rw [flatten_zipWith2 f a b h.2, List.zipWith_append f r a.flatten s b.flatten h.1]

theorem flatten2_map2Slices (f : ℚ → ℚ → ℚ) :
    ∀ x y : List (List (List ℚ)), shape3 x = shape3 y →
      (map2Slices f x y).flatten.flatten =
        List.zipWith f x.flatten.flatten y.flatten.flatten
  | [], [], _ => rfl
  | [], _ :: _, h => by simp [shape3] at h
  | _ :: _, [], h => by simp [shape3] at h
  | m :: x, k :: y, h => by
      simp only [shape3, List.map_cons, List.cons.injEq] at h
      have hlen : m.flatten.length = k.flatten.length := by
        rw [List.length_flatten, List.length_flatten, h.1]
      show (List.zipWith (List.zipWith f) m k :: map2Slices f x y).flatten.flatten = _
      simp only [List.flatten_cons, List.flatten_append]
      rw [flatten_zipWith2 f m k h.1, flatten2_map2Slices f x y h.2,
        List.zipWith_append f m.flatten x.flatten.flatten k.flatten
          y.flatten.flatten hlen]

theorem flatten2_mapSlices (f : ℚ → ℚ) (x : List (List (List ℚ))) :
    (mapSlices f x).flatten.flatten = x.flatten.flatten.map f := by
  rw [List.map_flatten, List.map_flatten]
  rfl

theorem flat_varAbs_varSub (va ve : Var) (hsh : shape3 va.slices = shape3 ve.slices) :
    (varAbs (varSub va ve)).flat =
      List.zipWith (fun x y => |x - y|) va.flat ve.flat := by
  show (mapSlices (fun q => |q|)
    (map2Slices (fun x y => x - y) va.slices ve.slices)).flatten.flatten = _
  rw [flatten2_mapSlices, flatten2_map2Slices (fun x y => x - y) va.slices ve.slices hsh,
    List.map_zipWith]
  rfl

/-! ## Membership in the tolerance comparison -/

theorem mem_dsLtTol_of (xs : List (String × NpF)) (tol : List (String × ℚ))
    {n : String} {x : NpF} {t : ℚ} (hx : (n, x) ∈ xs)
    (ht : List.lookup n tol = some t) :
    (n, NpF.lt x (NpF.fin (t : ℝ))) ∈ dsLtTol xs tol := by
  unfold dsLtTol
  refine List.mem_filterMap.mpr ⟨(n, x), hx, ?_⟩
  rw [ht]
  rfl

theorem of_mem_dsLtTol {xs : List (String × NpF)} {tol : List (String × ℚ)}
    {q : String × Prop} (h : q ∈ dsLtTol xs tol) :
    ∃ (n : String) (x : NpF) (t : ℚ),
      q = (n, NpF.lt x (NpF.fin (t : ℝ))) ∧ (n, x) ∈ xs ∧
      List.lookup n tol = some t := by
  unfold dsLtTol at h
  obtain ⟨p, hp, hq⟩ := List.mem_filterMap.mp h
  cases hqq : List.lookup p.1 tol with
  | none => rw [hqq] at hq; simp at hq
  | some t =>
      rw [hqq] at hq
      have hq2 : (p.1, NpF.lt p.2 (NpF.fin (t : ℝ))) = q := by
        simpa using hq
      exact ⟨p.1, p.2, t, hq2.symm, by simpa using hp, hqq⟩

theorem lookup_tolerance_self :
    ∀ nt ∈ tolerance, List.lookup nt.1 tolerance = some nt.2 := by
  intro nt hnt
  fin_cases hnt <;> rfl

/-! ## Shared witness computations -/

theorem stdNp_exVarE : stdNp exVarE.flat = NpF.fin 1 := by
  have hv : varianceQ [1, -1] = 1 := by norm_num [varianceQ, meanQ]
  have hflat : exVarE.flat = [1, -1] := rfl
  rw [hflat]
  norm_num [stdNp, hv, Real.sqrt_one]

theorem tre_pairE_pairE :
    List.lookup "temperature" (typical_relative_error pairE pairE) =
      some (NpF.fin 0) := by
  rw [lookup_tre pairE pairE "temperature" (by decide)]
  have h1 : List.lookup "temperature" pairE.dataVars = some exVarE := rfl
  rw [h1]
  show some (NpF.div (medianNp (varAbs (varSub exVarE exVarE)).flat)
    (stdNp exVarE.flat)) = _
  have hflat : (varAbs (varSub exVarE exVarE)).flat = [0, 0] := by
    norm_num [varAbs, varSub, Var.flat, mapSlices, map2Slices, exVarE]
  have hmed : medianNp [(0 : ℚ), 0] = NpF.fin 0 := by
    norm_num [medianNp, medianQ, List.insertionSort, List.orderedInsert]
  have hdiv : NpF.div (NpF.fin 0) (NpF.fin 1) = NpF.fin 0 := by
    norm_num [NpF.div]
  rw [hflat, hmed, stdNp_exVarE, hdiv]

theorem tre_pairBad_pairE :
    List.lookup "temperature" (typical_relative_error pairBad pairE) =
      some (NpF.fin 1) := by
  rw [lookup_tre pairBad pairE "temperature" (by decide)]
  have h1 : List.lookup "temperature" pairBad.dataVars = some exVarBad := rfl
  have h2 : List.lookup "temperature" pairE.dataVars = some exVarE := rfl
  rw [h1, h2]
  show some (NpF.div (medianNp (varAbs (varSub exVarBad exVarE)).flat)
    (stdNp exVarE.flat)) = _
  have hflat : (varAbs (varSub exVarBad exVarE)).flat = [1, 1] := by
    norm_num [varAbs, varSub, Var.flat, mapSlices, map2Slices, exVarBad, exVarE]
  have hmed : medianNp [(1 : ℚ), 1] = NpF.fin 1 := by
    norm_num [medianNp, medianQ, List.insertionSort, List.orderedInsert]
  have hdiv : NpF.div (NpF.fin 1) (NpF.fin 1) = NpF.fin 1 := by
    norm_num [NpF.div]
  rw [hflat, hmed, stdNp_exVarE, hdiv]

/-! ## Claims about the tolerance comparison -/

/-- C1: the per-variable tolerance thresholds checked by the validator
are exactly: eastward (u) wind 0.04, northward (v) wind 0.08,
temperature 0.02, geopotential 0.0005, specific humidity 0.003,
specific cloud liquid water content 0.12, specific cloud ice water
content 0.15; and (for datasets in which every tolerance-checked
variable is present in the computed error table, as the preceding
shape check guarantees for the test's data) the test passes exactly
when, for every one of these seven variables, its typical relative
error is below its threshold. -/
theorem c1_tolerance_thresholds (a e : Dataset) (hnd : a.varNames.Nodup)
    (hvars : ∀ nt ∈ tolerance,
      nt.1 ∈ (typical_relative_error a e).map Prod.fst) :
    tolerance =
      [("u_component_of_wind", 0.04), ("v_component_of_wind", 0.08),
       ("temperature", 0.02), ("geopotential", 0.0005),
       ("specific_humidity", 0.003),
       ("specific_cloud_liquid_water_content", 0.12),
       ("specific_cloud_ice_water_content", 0.15)] ∧
    (testPasses a e ↔ ∀ nt ∈ tolerance, ∃ x,
      List.lookup nt.1 (typical_relative_error a e) = some x ∧
        NpF.lt x (NpF.fin (nt.2 : ℝ))) := by
  refine ⟨rfl, ?_⟩
  constructor
  · intro hpass nt hnt
    obtain ⟨x, hx⟩ := lookup_some_of_mem_keys (hvars nt hnt)
    exact ⟨x, hx, hpass (nt.1, NpF.lt x (NpF.fin (nt.2 : ℝ)))
      (mem_dsLtTol_of _ _ (mem_of_lookup_eq_some hx)
        (lookup_tolerance_self nt hnt))⟩
  · intro hall p hp
    obtain ⟨n, x, t, hpq, hmem, ht⟩ := of_mem_dsLtTol hp
    obtain ⟨x', hx', hlt⟩ := hall (n, t) (mem_of_lookup_eq_some ht)
    have hlk : List.lookup n (typical_relative_error a e) = some x :=
      lookup_eq_some_of_mem_nodup (nodup_keys_tre a e hnd) hmem
    rw [hlk] at hx'
    injection hx' with hxx
    rw [hpq]
    exact hxx ▸ hlt

theorem c1_witness :
    sevenE.varNames.Nodup ∧
    (∀ nt ∈ tolerance,
      nt.1 ∈ (typical_relative_error sevenE sevenE).map Prod.fst) ∧
    (tolerance =
      [("u_component_of_wind", 0.04), ("v_component_of_wind", 0.08),
       ("temperature", 0.02), ("geopotential", 0.0005),
       ("specific_humidity", 0.003),
       ("specific_cloud_liquid_water_content", 0.12),
       ("specific_cloud_ice_water_content", 0.15)] ∧
    (testPasses sevenE sevenE ↔ ∀ nt ∈ tolerance, ∃ x,
      List.lookup nt.1 (typical_relative_error sevenE sevenE) = some x ∧
        NpF.lt x (NpF.fin (nt.2 : ℝ)))) := by
  have hnd : sevenE.varNames.Nodup := by decide
  have hkeys : (typical_relative_error sevenE sevenE).map Prod.fst =
      tolerance.map Prod.fst := by
    simp [typical_relative_error, scalarDiv, dsMedian, dsStd, dsAbs, dsSub,
      sevenE, tolerance, List.lookup]
  have hvars : ∀ nt ∈ tolerance,
      nt.1 ∈ (typical_relative_error sevenE sevenE).map Prod.fst := by
    intro nt hnt
    rw [hkeys]
    exact List.mem_map_of_mem Prod.fst hnt
  exact ⟨hnd, hvars, c1_tolerance_thresholds sevenE sevenE hnd hvars⟩

/-- C2: for every pair of actual and expected datasets compared in the
validation step, the typical relative error computed for a variable
present in both equals the median of the elementwise absolute
difference between the actual and expected fields divided by the
standard deviation of the expected field. -/
theorem c2_error_formula (a e : Dataset) (n : String) (va ve : Var)
    (hnd : a.varNames.Nodup)
    (ha : List.lookup n a.dataVars = some va)
    (he : List.lookup n e.dataVars = some ve)
    (hsh : shape3 va.slices = shape3 ve.slices) :
    List.lookup n (typical_relative_error a e) =
      some (specVarRelativeError va.flat ve.flat) := by
  rw [lookup_tre a e n hnd, ha, he]
  show some (NpF.div (medianNp (varAbs (varSub va ve)).flat) (stdNp ve.flat)) = _
  rw [flat_varAbs_varSub va ve hsh]
  rfl

theorem c2_witness :
    pairE.varNames.Nodup ∧
    List.lookup "temperature" pairE.dataVars = some exVarE ∧
    shape3 exVarE.slices = shape3 exVarE.slices ∧
    List.lookup "temperature" (typical_relative_error pairE pairE) =
      some (specVarRelativeError exVarE.flat exVarE.flat) :=
  ⟨by decide, rfl, rfl,
    c2_error_formula pairE pairE "temperature" exVarE exVarE (by decide) rfl rfl rfl⟩

/-- C3: whenever at least one variable's typical relative error fails
its tolerance comparison, the assertion fails, and the failure
diagnostic carries the entire computed `typical_relative_error`
table — the value of every compared variable — not only the offending
variable. -/
theorem c3_failure_reports_full_table (a e : Dataset) (n : String) (t : ℚ)
    (x : NpF)
    (hnt : List.lookup n tolerance = some t)
    (hx : List.lookup n (typical_relative_error a e) = some x)
    (hexceed : ¬ NpF.lt x (NpF.fin (t : ℝ))) :
    validationOutcome a e =
      TestOutcome.failure (typical_relative_error a e) := by
  have hnp : ¬ testPasses a e := by
    intro hp
    exact hexceed (hp (n, NpF.lt x (NpF.fin (t : ℝ)))
      (mem_dsLtTol_of _ _ (mem_of_lookup_eq_some hx) hnt))
  show assertTrueMsg _ _ = _
  unfold assertTrueMsg
  rw [if_neg hnp]

theorem c3_witness :
    List.lookup "temperature" tolerance = some 0.02 ∧
    List.lookup "temperature" (typical_relative_error pairBad pairE) =
      some (NpF.fin 1) ∧
    ¬ NpF.lt (NpF.fin 1) (NpF.fin ((0.02 : ℚ) : ℝ)) ∧
    validationOutcome pairBad pairE =
      TestOutcome.failure (typical_relative_error pairBad pairE) := by
  have hnt : List.lookup "temperature" tolerance = some 0.02 := rfl
  have hex : ¬ NpF.lt (NpF.fin 1) (NpF.fin ((0.02 : ℚ) : ℝ)) := by
    show ¬ ((1 : ℝ) < ((0.02 : ℚ) : ℝ))
    norm_num
  exact ⟨hnt, tre_pairBad_pairE, hex,
    c3_failure_reports_full_table pairBad pairE "temperature" 0.02 (NpF.fin 1)
      hnt tre_pairBad_pairE hex⟩

/-- C9: the tolerance check is a strict inequality evaluated over every
compared variable: the test passes only when every compared variable's
error is strictly below its threshold; a variable whose typical
relative error exactly equals its threshold, or whose computed error is
NaN (which makes the numpy comparison false), makes the assertion
fail. -/
theorem c9_strict_inequality (a e : Dataset) (n : String) (t : ℚ) (x : NpF)
    (hnt : List.lookup n tolerance = some t)
    (hx : List.lookup n (typical_relative_error a e) = some x) :
    (testPasses a e → NpF.lt x (NpF.fin (t : ℝ))) ∧
    (x = NpF.fin (t : ℝ) → ¬ testPasses a e) ∧
    (x = NpF.nan → ¬ testPasses a e) := by
  have hkey : testPasses a e → NpF.lt x (NpF.fin (t : ℝ)) := fun hp =>
    hp (n, NpF.lt x (NpF.fin (t : ℝ)))
      (mem_dsLtTol_of _ _ (mem_of_lookup_eq_some hx) hnt)
  refine ⟨hkey, ?_, ?_⟩
  · rintro rfl hp
    exact lt_irrefl _ (hkey hp)
  · rintro rfl hp
    exact hkey hp

theorem c9_witness :
    List.lookup "temperature" tolerance = some 0.02 ∧
    List.lookup "temperature" (typical_relative_error pairE pairE) =
      some (NpF.fin 0) ∧
    ((testPasses pairE pairE → NpF.lt (NpF.fin 0) (NpF.fin ((0.02 : ℚ) : ℝ))) ∧
     (NpF.fin 0 = NpF.fin ((0.02 : ℚ) : ℝ) → ¬ testPasses pairE pairE) ∧
     (NpF.fin 0 = NpF.nan → ¬ testPasses pairE pairE)) :=
  ⟨rfl, tre_pairE_pairE,
    c9_strict_inequality pairE pairE "temperature" 0.02 (NpF.fin 0) rfl
      tre_pairE_pairE⟩

/-! ## Filter and coordinate lookup helpers -/

theorem keys_filter_by_key {β : Type _} (q : String → Bool) :
    ∀ xs : List (String × β),
      (xs.filter (fun p => q p.1)).map Prod.fst = (xs.map Prod.fst).filter q
  | [] => rfl
  | (k, v) :: rest => by
      cases hq : q k <;>
        simp [List.filter_cons, hq, keys_filter_by_key q rest]

theorem lookup_filter_excluded {β : Type _} (c a b : String)
    (hc : c = a ∨ c = b) :
    ∀ xs : List (String × β),
      List.lookup c (xs.filter (fun p => !(p.1 == a || p.1 == b))) = none
  | [] => rfl
  | (k, v) :: rest => by
      cases hcond : (k == a || k == b) with
      | true =>
          have hpred : (!(k == a || k == b)) = false := by rw [hcond]; rfl
          rw [List.filter_cons, hpred, if_neg Bool.false_ne_true]
          exact lookup_filter_excluded c a b hc rest
      | false =>
          have h2 : ¬k = a ∧ ¬k = b := by simpa using hcond
          have hck : (c == k) = false := beq_false_of_ne (by
            rintro rfl
            rcases hc with rfl | rfl
            · exact h2.1 rfl
            · exact h2.2 rfl)
          have hpred : (!(k == a || k == b)) = true := by rw [hcond]; rfl
          rw [List.filter_cons, hpred, if_pos rfl, List.lookup_cons, hck]
          exact lookup_filter_excluded c a b hc rest

theorem lookup_filter_kept {β : Type _} (c a b : String)
    (hca : c ≠ a) (hcb : c ≠ b) :
    ∀ xs : List (String × β),
      List.lookup c (xs.filter (fun p => !(p.1 == a || p.1 == b))) =
        List.lookup c xs
  | [] => rfl
  | (k, v) :: rest => by
      by_cases hck : c = k
      · subst hck
        have hpred : (!(c == a || c == b)) = true := by
          rw [beq_false_of_ne hca, beq_false_of_ne hcb]
          rfl
        rw [List.filter_cons, hpred, if_pos rfl, List.lookup_cons,
          List.lookup_cons, beq_self_eq_true c]
      · cases hcond : (k == a || k == b) with
        | true =>
            have hpred : (!(k == a || k == b)) = false := by rw [hcond]; rfl
            rw [List.filter_cons, hpred, if_neg Bool.false_ne_true,
              List.lookup_cons, beq_false_of_ne hck]
            exact lookup_filter_kept c a b hca hcb rest
        | false =>
            have hpred : (!(k == a || k == b)) = true := by rw [hcond]; rfl
            rw [List.filter_cons, hpred, if_pos rfl, List.lookup_cons,
              List.lookup_cons, beq_false_of_ne hck]
            exact lookup_filter_kept c a b hca hcb rest

/-! ## Claims about variable selection and dataset loading -/

/-- C5: the expected dataset is the regridded dataset with exactly the
two forcing-only variables `sea_surface_temperature` and
`sea_ice_cover` removed and no others; consequently any output dataset
that passes the variable-set check against it has a variable set
contained in the regridded dataset's with the two forcing-only
variables absent. -/
theorem c5_forcing_vars_dropped (ds : Dataset)
    (hsst : "sea_surface_temperature" ∈ ds.varNames)
    (hsic : "sea_ice_cover" ∈ ds.varNames) :
    ∃ expected,
      ds.drop_vars ["sea_surface_temperature", "sea_ice_cover"] =
        Except.ok expected ∧
      expected.varNames = ds.varNames.filter
        (fun n => !(["sea_surface_temperature", "sea_ice_cover"].contains n)) ∧
      ∀ actual, sameVarNames actual expected →
        (∀ n ∈ actual.varNames, n ∈ ds.varNames) ∧
        "sea_surface_temperature" ∉ actual.varNames ∧
        "sea_ice_cover" ∉ actual.varNames := by
  have hcond : (["sea_surface_temperature", "sea_ice_cover"].all
      (fun n => ds.varNames.contains n)) = true := by
    simp only [List.all_cons, List.all_nil, Bool.and_true, Bool.and_eq_true]
    exact ⟨List.elem_iff.mpr hsst, List.elem_iff.mpr hsic⟩
  have hexp : ds.drop_vars ["sea_surface_temperature", "sea_ice_cover"] =
      Except.ok (Dataset.mk
        (ds.dataVars.filter
          (fun p => !(["sea_surface_temperature", "sea_ice_cover"].contains p.1)))
        ds.coords) := by
    unfold Dataset.drop_vars
    rw [if_pos hcond]
  have hnames : (Dataset.mk
      (ds.dataVars.filter
        (fun p => !(["sea_surface_temperature", "sea_ice_cover"].contains p.1)))
      ds.coords).varNames
      = ds.varNames.filter
        (fun n => !(["sea_surface_temperature", "sea_ice_cover"].contains n)) :=
    keys_filter_by_key
      (fun n => !(["sea_surface_temperature", "sea_ice_cover"].contains n))
      ds.dataVars
  refine ⟨_, hexp, hnames, ?_⟩
  intro actual hsame
  refine ⟨?_, ?_, ?_⟩
  · intro n hn
    have hmem := (hsame n).mp hn
    rw [hnames] at hmem
    exact List.mem_of_mem_filter hmem
  · intro hmem
    have hmem2 := (hsame _).mp hmem
    rw [hnames] at hmem2
    have := List.of_mem_filter hmem2
    simp at this
  · intro hmem
    have hmem2 := (hsame _).mp hmem
    rw [hnames] at hmem2
    have := List.of_mem_filter hmem2
    simp at this

theorem c5_witness :
    "sea_surface_temperature" ∈ ds5.varNames ∧
    "sea_ice_cover" ∈ ds5.varNames ∧
    (∃ expected,
      ds5.drop_vars ["sea_surface_temperature", "sea_ice_cover"] =
        Except.ok expected ∧
      expected.varNames = ds5.varNames.filter
        (fun n => !(["sea_surface_temperature", "sea_ice_cover"].contains n)) ∧
      ∀ actual, sameVarNames actual expected →
        (∀ n ∈ actual.varNames, n ∈ ds5.varNames) ∧
        "sea_surface_temperature" ∉ actual.varNames ∧
        "sea_ice_cover" ∉ actual.varNames) :=
  ⟨by decide, by decide,
    c5_forcing_vars_dropped ds5 (by decide) (by decide)⟩

/-- C6 (counterexample to the claim as stated): on a dataset that
already has a `time` dimension, the loader's unconditional
`expand_dims('time')` raises an error; it does not leave the dataset
unchanged. -/
theorem c6_counterexample :
    dsWithTime.expand_dims "time" =
      Except.error "Dimension time already exists." ∧
    ¬ dsWithTime.expand_dims "time" = Except.ok dsWithTime := by
  refine ⟨rfl, ?_⟩
  intro h
  exact Except.noConfusion
    (show (Except.error "Dimension time already exists." : Except String Dataset) =
      Except.ok dsWithTime from h)

/-- C6 (amended): the loader applies `expand_dims('time')`
unconditionally.  When the dataset has no `time` dimension, a size-1
`time` dimension is inserted at axis 0 of every variable; when a
`time` dimension is already present, loading fails with an error
rather than leaving the dataset unchanged. -/
theorem c6_expand_dims_unconditional (ds : Dataset) :
    ("time" ∉ ds.dimNames →
      ds.expand_dims "time" = Except.ok
        { dataVars := ds.dataVars.map
            (fun p => (p.1, { p.2 with outerDims := ("time", 1) :: p.2.outerDims }))
          coords := ds.coords }) ∧
    ("time" ∈ ds.dimNames →
      ∃ msg, ds.expand_dims "time" = Except.error msg) := by
  constructor
  · intro h
    unfold Dataset.expand_dims
    rw [if_neg h]
  · intro h
    refine ⟨"Dimension " ++ "time" ++ " already exists.", ?_⟩
    unfold Dataset.expand_dims
    rw [if_pos h]

theorem c6_witness :
    "time" ∉ pairE.dimNames ∧
    pairE.expand_dims "time" = Except.ok
      { dataVars := pairE.dataVars.map
          (fun p => (p.1, { p.2 with outerDims := ("time", 1) :: p.2.outerDims }))
        coords := pairE.coords } := by
  have h : "time" ∉ pairE.dimNames := by decide
  exact ⟨h, (c6_expand_dims_unconditional pairE).1 h⟩

/-! ## Claims about regridding -/

/-- C7: the regridding operation applies the regridder to each
longitude×latitude slice of each variable independently across all
non-spatial indices (the vectorized loop), and the output's longitude
and latitude coordinates are the target grid's native angles converted
from radians to degrees. -/
theorem c7_regrid_per_slice (r : Regridder) (ds : Dataset) (n : String)
    (v : Var) (hv : List.lookup n ds.dataVars = some v) :
    (∃ w, List.lookup n (horizontal_regrid r ds).dataVars = some w ∧
      w.outerDims = v.outerDims ∧
      w.nlon = r.target_grid.longitudes.length ∧
      w.nlat = r.target_grid.latitudes.length ∧
      w.slices.length = v.slices.length ∧
      (∀ i : ℕ, w.slices[i]? = (v.slices[i]?).map r.regrid)) ∧
    List.lookup "longitude" (horizontal_regrid r ds).coords =
      some (r.target_grid.longitudes.map rad2deg) ∧
    List.lookup "latitude" (horizontal_regrid r ds).coords =
      some (r.target_grid.latitudes.map rad2deg) := by
  have hw : List.lookup n (horizontal_regrid r ds).dataVars = some
      { outerDims := v.outerDims
        nlon := r.target_grid.longitudes.length
        nlat := r.target_grid.latitudes.length
        slices := v.slices.map r.regrid } := by
    have h0 := lookup_map_value n (fun _ (v : Var) =>
      ({ outerDims := v.outerDims
         nlon := r.target_grid.longitudes.length
         nlat := r.target_grid.latitudes.length
         slices := v.slices.map r.regrid } : Var)) ds.dataVars
    rw [hv] at h0
    exact h0
  refine ⟨⟨_, hw, rfl, rfl, rfl, by simp, fun i => ?_⟩, ?_, ?_⟩
  · exact List.getElem?_map r.regrid v.slices i
  · have hnone : List.lookup "longitude"
        (ds.coords.filter (fun p => !(p.1 == "longitude" || p.1 == "latitude"))) =
        none :=
      lookup_filter_excluded "longitude" "longitude" "latitude" (Or.inl rfl)
        ds.coords
    show List.lookup "longitude"
      ((ds.coords.filter (fun p => !(p.1 == "longitude" || p.1 == "latitude"))) ++
        [("longitude", r.target_grid.longitudes.map rad2deg),
         ("latitude", r.target_grid.latitudes.map rad2deg)]) = _
    rw [lookup_append_right _ _ hnone]
    rfl
  · have hnone : List.lookup "latitude"
        (ds.coords.filter (fun p => !(p.1 == "longitude" || p.1 == "latitude"))) =
        none :=
      lookup_filter_excluded "latitude" "longitude" "latitude" (Or.inr rfl)
        ds.coords
    show List.lookup "latitude"
      ((ds.coords.filter (fun p => !(p.1 == "longitude" || p.1 == "latitude"))) ++
        [("longitude", r.target_grid.longitudes.map rad2deg),
         ("latitude", r.target_grid.latitudes.map rad2deg)]) = _
    rw [lookup_append_right _ _ hnone]
    rfl

theorem c7_witness :
    List.lookup "temperature" pairE.dataVars = some exVarE ∧
    ((∃ w, List.lookup "temperature"
          (horizontal_regrid exRegridder pairE).dataVars = some w ∧
      w.outerDims = exVarE.outerDims ∧
      w.nlon = exRegridder.target_grid.longitudes.length ∧
      w.nlat = exRegridder.target_grid.latitudes.length ∧
      w.slices.length = exVarE.slices.length ∧
      (∀ i : ℕ, w.slices[i]? = (exVarE.slices[i]?).map exRegridder.regrid)) ∧
    List.lookup "longitude" (horizontal_regrid exRegridder pairE).coords =
      some (exRegridder.target_grid.longitudes.map rad2deg) ∧
    List.lookup "latitude" (horizontal_regrid exRegridder pairE).coords =
      some (exRegridder.target_grid.latitudes.map rad2deg)) :=
  ⟨rfl, c7_regrid_per_slice exRegridder pairE "temperature" exVarE rfl⟩

/-- C10: regridding changes only the horizontal structure: the
variable set is unchanged, every variable keeps its non-horizontal
dimensions (names and sizes) and its number of horizontal slices, and
every coordinate other than longitude and latitude is unchanged. -/
theorem c10_regrid_frame (r : Regridder) (ds : Dataset) :
    (horizontal_regrid r ds).varNames = ds.varNames ∧
    (∀ n v, List.lookup n ds.dataVars = some v →
      ∃ w, List.lookup n (horizontal_regrid r ds).dataVars = some w ∧
        w.outerDims = v.outerDims ∧ w.slices.length = v.slices.length) ∧
    (∀ c, c ≠ "longitude" → c ≠ "latitude" →
      List.lookup c (horizontal_regrid r ds).coords = List.lookup c ds.coords) := by
  refine ⟨?_, ?_, ?_⟩
  · exact keys_map_value (fun _ (v : Var) =>
      ({ outerDims := v.outerDims
         nlon := r.target_grid.longitudes.length
         nlat := r.target_grid.latitudes.length
         slices := v.slices.map r.regrid } : Var)) ds.dataVars
  · intro n v hv
    have hw : List.lookup n (horizontal_regrid r ds).dataVars = some
        { outerDims := v.outerDims
          nlon := r.target_grid.longitudes.length
          nlat := r.target_grid.latitudes.length
          slices := v.slices.map r.regrid } := by
      have h0 := lookup_map_value n (fun _ (v : Var) =>
        ({ outerDims := v.outerDims
           nlon := r.target_grid.longitudes.length
           nlat := r.target_grid.latitudes.length
           slices := v.slices.map r.regrid } : Var)) ds.dataVars
      rw [hv] at h0
      exact h0
    exact ⟨_, hw, rfl, by simp⟩
  · intro c hclon hclat
    have hkept := lookup_filter_kept c "longitude" "latitude" hclon hclat ds.coords
    show List.lookup c
      ((ds.coords.filter (fun p => !(p.1 == "longitude" || p.1 == "latitude"))) ++
        [("longitude", r.target_grid.longitudes.map rad2deg),
         ("latitude", r.target_grid.latitudes.map rad2deg)]) = _
    cases hds : List.lookup c ds.coords with
    | some x =>
        rw [hds] at hkept
        exact lookup_append_left c _ hkept
    | none =>
        rw [hds] at hkept
        rw [lookup_append_right c _ hkept]
        rw [List.lookup_cons, beq_false_of_ne hclon, List.lookup_cons,
          beq_false_of_ne hclat]
        rfl

theorem c10_witness :
    (horizontal_regrid exRegridder pairE).varNames = pairE.varNames ∧
    (∀ n v, List.lookup n pairE.dataVars = some v →
      ∃ w, List.lookup n (horizontal_regrid exRegridder pairE).dataVars = some w ∧
        w.outerDims = v.outerDims ∧ w.slices.length = v.slices.length) ∧
    (∀ c, c ≠ "longitude" → c ≠ "latitude" →
      List.lookup c (horizontal_regrid exRegridder pairE).coords =
        List.lookup c pairE.coords) :=
  c10_regrid_frame exRegridder pairE

/-! ## Claims about the rollout -/

/-- C4: with `start_with_input=True`, a rollout of `N` steps from time
`t0` with timestep `dt` produces exactly `N` outputs, output 0 being
the decoded initial condition and output `i` the state after `i`
steps; and the timestamp array `np.arange(t0, t0 + N*dt, dt)` attached
in the reassembly step has exactly `N` entries with entry `i` equal to
`t0 + i·dt`. -/
theorem c4_rollout_timestamps (t0 dt : ℤ) (N : ℕ) (hdt : 0 < dt)
    {S O : Type} (stepFn : S → S) (decodeFn : S → O) (encoded : S) :
    (npArange t0 (t0 + N * dt) dt).length = N ∧
    (∀ i : ℕ, i < N → (npArange t0 (t0 + N * dt) dt)[i]? =
      some (t0 + i * dt)) ∧
    (unrollOutputs stepFn decodeFn encoded N true).length = N ∧
    (0 < N → (unrollOutputs stepFn decodeFn encoded N true)[0]? =
      some (decodeFn encoded)) ∧
    (∀ i : ℕ, i < N → (unrollOutputs stepFn decodeFn encoded N true)[i]? =
      some (decodeFn (stepFn^[i] encoded))) := by
  have hcount : (if 0 < dt then ((t0 + ↑N * dt - t0 + dt - 1) / dt).toNat
      else if dt < 0 then ((t0 - (t0 + ↑N * dt) - dt - 1) / (-dt)).toNat
      else 0) = N := by
    rw [if_pos hdt]
    have h1 : t0 + ↑N * dt - t0 + dt - 1 = (dt - 1) + ↑N * dt := by ring
    rw [h1, Int.add_mul_ediv_right _ _ (ne_of_gt hdt),
      Int.ediv_eq_zero_of_lt (by omega) (by omega)]
    simp
  have harr : npArange t0 (t0 + ↑N * dt) dt =
      (List.range N).map (fun i : ℕ => t0 + (i : ℤ) * dt) := by
    simp only [npArange]
    rw [hcount]
  have hunroll : unrollOutputs stepFn decodeFn encoded N true =
      (List.range N).map (fun i => decodeFn (stepFn^[i] encoded)) := rfl
  refine ⟨?_, ?_, ?_, ?_, ?_⟩
  · rw [harr]
    simp
  · intro i hi
    rw [harr]
    rw [List.getElem?_map, List.getElem?_range hi]
    rfl
  · rw [hunroll]
    simp
  · intro hN
    rw [hunroll, List.getElem?_map, List.getElem?_range hN]
    rfl
  · intro i hi
    rw [hunroll, List.getElem?_map, List.getElem?_range hi]
    rfl

theorem c4_witness :
    (0 : ℤ) < 1 ∧
    ((npArange 0 ((0 : ℤ) + (3 : ℕ) * 1) 1).length = 3 ∧
     (∀ i : ℕ, i < 3 → (npArange 0 ((0 : ℤ) + (3 : ℕ) * 1) 1)[i]? =
       some (0 + i * 1)) ∧
     (unrollOutputs (fun q : ℚ => q + 1) id 0 3 true).length = 3 ∧
     (0 < 3 → (unrollOutputs (fun q : ℚ => q + 1) id 0 3 true)[0]? =
       some (id (0 : ℚ))) ∧
     (∀ i : ℕ, i < 3 → (unrollOutputs (fun q : ℚ => q + 1) id 0 3 true)[i]? =
       some (id ((fun q : ℚ => q + 1)^[i] 0)))) :=
  ⟨by norm_num,
    c4_rollout_timestamps 0 1 3 (by norm_num) (fun q : ℚ => q + 1) id 0⟩

/-! ## Claim about encoding determinism -/

/-- C8: encode is deterministic given its seed — two calls with equal
state, forcings, and RNG key yield identical encoded states (bit
identity in the embedding being equality of values). -/
theorem c8_encode_deterministic {St Fo Key Noise Enc : Type}
    (perturbation : Key → Noise) (combine : St → Fo → Noise → Enc)
    (s s' : St) (f f' : Fo) (k k' : Key)
    (hs : s = s') (hf : f = f') (hk : k = k') :
    encode perturbation combine s f k = encode perturbation combine s' f' k' := by
  rw [hs, hf, hk]

theorem c8_witness :
    (1 : ℚ) = 1 ∧ (2 : ℚ) = 2 ∧ (3 : ℚ) = 3 ∧
    encode (fun k : ℚ => k) (fun s f n => s + f + n) 1 2 3 =
      encode (fun k : ℚ => k) (fun s f n => s + f + n) 1 2 3 :=
  ⟨rfl, rfl, rfl,
    c8_encode_deterministic (fun k : ℚ => k) (fun s f n => s + f + n)
      1 1 2 2 3 3 rfl rfl rfl⟩
